import Mathlib

/-!
Shallow embedding of the booking-availability and payment-reconciliation
subsystem of the alx_travel_app repository (Django).

Conventions of the embedding:
* Dates are `Int`, counting days (Django `DateField`; only ordering and
  day-difference arithmetic are used by the code).
* Money is `Int`, counting cents: `DecimalField(max_digits=6, decimal_places=2)`
  values are exact multiples of 0.01, and the only arithmetic performed on them
  by the code is multiplication by a whole number of nights, which is exact.
* Database tables are Lean lists; `Model.objects.filter/get` become list
  operations; `save()` becomes an in-place replacement keyed on the primary key.
* The external payment provider (Chapa) is modelled by passing the provider's
  response as an explicit argument to the functions that perform the HTTP call.
-/

namespace AlxTravel

/-- Booking.STATUS_CHOICES in listings/models.py. -/
inductive BookingStatus where
  | pending
  | confirmed
  | canceled
deriving DecidableEq, Repr

/-- Payment status values used by listings/services.py and views.py
(`pending`, `completed`, `failed`). -/
inductive PaymentStatus where
  | pending
  | completed
  | failed
deriving DecidableEq, Repr

/-- Listing model (listings/models.py): identity, host, nightly price
(price_per_night in cents). -/
structure Listing where
  listing_id : Nat
  host_id : Nat
  price_per_night : Int
deriving DecidableEq, Repr

/-- Booking model (listings/models.py). -/
structure Booking where
  booking_id : Nat
  listing_id : Nat
  user_id : Nat
  start_date : Int
  end_date : Int
  total_price : Int
  status : BookingStatus
deriving DecidableEq, Repr

/-- Modelled from the spec: the Payment model class itself is not under src/
(only its callers in listings/services.py and listings/views.py are). Fields
follow spec §3 and the uses `Payment.objects.create(booking=..,
transaction_id=.., chapa_checkout_url=.., amount=.., chapa_reference=..,
status='pending')`, `payment.booking`, `payment.transaction_id`,
`payment.status`, `payment.chapa_checkout_url`. `transaction_id` is unique
and is the lookup key for callbacks. -/
structure Payment where
  booking_id : Nat
  transaction_id : String
  chapa_checkout_url : String
  amount : Int
  chapa_reference : Option String
  status : PaymentStatus
deriving DecidableEq, Repr

/-- A Booking is active (occupies the availability calendar) when its status
is in `['pending', 'confirmed']` — the serializer's `status__in` filter. -/
def Booking.isActive (b : Booking) : Bool :=
  b.status = BookingStatus.pending || b.status = BookingStatus.confirmed

/-- Write-side attributes a booking serializer can receive in `attrs`
(`validated_data`): the writable fields of BookingSerializer.  `user_id`,
`total_price`, `booking_id`, `created_at` are read-only and can never appear. -/
structure BookingAttrs where
  listing_id : Option Nat
  start_date : Option Int
  end_date : Option Int
  status : Option BookingStatus
deriving DecidableEq, Repr

/-- The `Booking.objects.filter(listing_id=listing, status__in=['pending',
'confirmed']).filter(start_date__lt=end_date, end_date__gt=start_date)`
queryset of BookingSerializer.validate. `listing` is `attrs.get('listing_id')`
and may be absent (`none`), in which case no row with a (non-null) listing
foreign key matches. -/
def overlappingBookings (bookings : List Booking) (listing : Option Nat)
    (start_date end_date : Int) : List Booking :=
  bookings.filter (fun b =>
    some b.listing_id = listing && b.isActive
      && b.start_date < end_date && b.end_date > start_date)

/-- BookingSerializer.validate (listings/serializers.py lines 114–139).
`instancePk` is `self.instance`'s primary key when the serializer is bound to an
existing row (update), `none` on create; when present, the overlap queryset
excludes that row (`exclude(pk=self.instance.pk)`). The date-ordering and
overlap checks run only when both `start_date` and `end_date` are present in
`attrs`. -/
def BookingSerializer.validate (bookings : List Booking) (instancePk : Option Nat)
    (attrs : BookingAttrs) : Except String BookingAttrs :=
  match attrs.start_date, attrs.end_date with
  | some s, some e =>
    if s ≥ e then
      Except.error "End date must be after start date"
    else
      let ov := overlappingBookings bookings attrs.listing_id s e
      let ov := match instancePk with
        | some pk => ov.filter (fun (b : Booking) => b.booking_id ≠ pk)
        | none => ov
      if ov.isEmpty then Except.ok attrs
      else Except.error "Property is not available for selected dates"
  | _, _ => Except.ok attrs

/-- BookingCreateSerializer.validate (listings/serializers.py lines 159–180):
same checks, never bound to an instance (no exclude step). -/
def BookingCreateSerializer.validate (bookings : List Booking)
    (attrs : BookingAttrs) : Except String BookingAttrs :=
  match attrs.start_date, attrs.end_date with
  | some s, some e =>
    if s ≥ e then
      Except.error "End date must be after start date"
    else
      let ov := overlappingBookings bookings attrs.listing_id s e
      if ov.isEmpty then Except.ok attrs
      else Except.error "Property is not available for selected dates"
  | _, _ => Except.ok attrs

/-- BookingSerializer.create (listings/serializers.py lines 141–151):
stamps the requesting user, computes `nights = (end_date - start_date).days`
and `total_price = nights * listing.price_per_night`, and creates the row
(model default gives `status='pending'`; `booking_id` is the generated UUID,
passed here as a parameter). -/
def BookingSerializer.create (userId : Nat) (listing : Listing)
    (start_date end_date : Int) (newId : Nat) : Booking :=
  let nights := end_date - start_date
  { booking_id := newId
    listing_id := listing.listing_id
    user_id := userId
    start_date := start_date
    end_date := end_date
    total_price := nights * listing.price_per_night
    status := BookingStatus.pending }

/-- ModelSerializer.update semantics for BookingSerializer: each writable
attribute present in `validated_data` is set on the instance; read-only fields
(`total_price`, `user_id`, `booking_id`) are never in `validated_data`. -/
def BookingSerializer.update (b : Booking) (attrs : BookingAttrs) : Booking :=
  { b with
    listing_id := attrs.listing_id.getD b.listing_id
    start_date := attrs.start_date.getD b.start_date
    end_date := attrs.end_date.getD b.end_date
    status := attrs.status.getD b.status }

/-- Helper for stating admission: a serializer validate call admits the
request when it returns `ok`. -/
def admits (r : Except String BookingAttrs) : Bool :=
  match r with
  | Except.ok _ => true
  | Except.error _ => false

/-- Two half-open date ranges overlap: s1 < e2 AND s2 < e1. -/
def rangesOverlap (s1 e1 s2 e2 : Int) : Prop :=
  s1 < e2 ∧ s2 < e1

instance (s1 e1 s2 e2 : Int) : Decidable (rangesOverlap s1 e1 s2 e2) := by
  unfold rangesOverlap
  infer_instance

/-- The per-listing no-overlap invariant of the spec: among the active
bookings of listing `L`, no two distinct entries have overlapping ranges. -/
def noOverlapInvariant (bookings : List Booking) (L : Nat) : Prop :=
  bookings.Pairwise (fun b1 b2 =>
    b1.listing_id = L → b2.listing_id = L → b1.isActive → b2.isActive →
      ¬ rangesOverlap b1.start_date b1.end_date b2.start_date b2.end_date)

/-! ## Payment provider interaction (listings/services.py)

The HTTP exchange with Chapa is modelled by an explicit argument describing
what `requests.post`/`requests.get` produced: a raised `RequestException`
(network error), a non-200 HTTP status, a 200 body whose top-level `status`
field is not `'success'`, or a 200 success body carrying the payload the code
reads. -/

/-- Outcome of the `requests.get` call in ChapaService.verify_payment.
In the `ok` case, `providerStatus` is `data['data'].get('status','')`,
`amount` is `data['data'].get('amount')` and `reference` is
`data['data'].get('reference')`. -/
inductive ChapaVerifyResponse where
  | networkError (msg : String)
  | httpError (code : Nat)
  | apiFailure (msg : String)
  | ok (providerStatus : String) (amount : Option Int) (reference : Option String)
deriving DecidableEq, Repr

/-- Outcome of the `requests.post` call in ChapaService.initiate_payment.
In the `ok` case, `checkout_url` is `data['data']['checkout_url']` and
`reference` is `data['data'].get('reference')`. -/
inductive ChapaInitResponse where
  | networkError (msg : String)
  | httpError (code : Nat)
  | apiFailure (msg : String)
  | ok (checkout_url : String) (reference : Option String)
deriving DecidableEq, Repr

/-- Python `str.lower()` on one character, for the ASCII range the provider's
status vocabulary uses. -/
def pyLowerChar (c : Char) : Char :=
  if c.isUpper then Char.ofNat (c.toNat + 32) else c

/-- Python `str.lower()` (`payment_data.get('status', '').lower()` and
`callback_data.get('status', '').lower()`), for ASCII strings. -/
def pyLower (s : String) : String := String.mk (s.data.map pyLowerChar)

/-- The `status_mapping` dictionary of ChapaService.verify_payment and
PaymentCallbackView.post, applied with `.get(status, 'pending')`: any key
outside the three listed ones falls back to `'pending'`. -/
def status_mapping (s : String) : PaymentStatus :=
  match s with
  | "success" => PaymentStatus.completed
  | "failed" => PaymentStatus.failed
  | "pending" => PaymentStatus.pending
  | _ => PaymentStatus.pending

/-- The success payload of ChapaService.verify_payment: internal status after
mapping, plus the provider's amount and reference. -/
structure VerifyOk where
  status : PaymentStatus
  amount : Option Int
  reference : Option String
deriving DecidableEq, Repr

/-- ChapaService.verify_payment (listings/services.py lines 97–153): performs
the provider call (its outcome is `resp`), lowercases the provider status and
maps it through `status_mapping`; every failure mode collapses to
`{'success': False, 'error': msg}`, embedded as `Except.error msg`. -/
def ChapaService.verify_payment (resp : ChapaVerifyResponse) :
    Except String VerifyOk :=
  match resp with
  | ChapaVerifyResponse.networkError msg =>
      Except.error ("Network error: " ++ msg)
  | ChapaVerifyResponse.httpError code =>
      Except.error ("API request failed with status " ++ toString code)
  | ChapaVerifyResponse.apiFailure msg => Except.error msg
  | ChapaVerifyResponse.ok providerStatus amount reference =>
      Except.ok
        { status := status_mapping (pyLower providerStatus)
          amount := amount
          reference := reference }

/-- The persisted state the payment subsystem reads and writes: the Booking
and Payment tables, plus a counter of confirmation notifications sent
(`ChapaService.send_confirmation_email` calls). -/
structure DB where
  listings : List Listing
  bookings : List Booking
  payments : List Payment
  emailsSent : Nat
deriving DecidableEq, Repr

/-- Lookup `Booking.objects.get(pk=pk)` / `get_object_or_404(Booking, pk=pk)`. -/
def DB.findBooking (db : DB) (pk : Nat) : Option Booking :=
  db.bookings.find? (fun b => b.booking_id = pk)

/-- Lookup `Payment.objects.get(transaction_id=tx)`. -/
def DB.findPaymentByTx (db : DB) (tx : String) : Option Payment :=
  db.payments.find? (fun p => p.transaction_id = tx)

/-- The implicit reverse one-to-one accessor `booking.payment`
(`hasattr(booking, 'payment')` is `isSome`). -/
def DB.paymentOfBooking (db : DB) (bookingId : Nat) : Option Payment :=
  db.payments.find? (fun p => p.booking_id = bookingId)

/-- Dereference `booking.listing_id`: the listing row of a booking. -/
def DB.findListing (db : DB) (listingId : Nat) : Option Listing :=
  db.listings.find? (fun l => l.listing_id = listingId)

/-- Dereference `booking.listing_id.host_id`: the host of the booking's listing. -/
def DB.hostOf (db : DB) (b : Booking) : Option Nat :=
  (db.findListing b.listing_id).map (fun l => l.host_id)

/-- Save `booking.save()`: replace the row with the same primary key. -/
def DB.saveBooking (db : DB) (b : Booking) : DB :=
  { db with bookings := (db.bookings.map
      (fun old => if old.booking_id = b.booking_id then b else old)) }

/-- Save `payment.save()`: replace the row with the same (unique) transaction_id. -/
def DB.savePayment (db : DB) (p : Payment) : DB :=
  { db with payments := (db.payments.map
      (fun old => if old.transaction_id = p.transaction_id then p else old)) }

/-- Notification `ChapaService.send_confirmation_email(booking)`: fire-and-forget
notification; the embedding counts how often it fires. -/
def DB.sendEmail (db : DB) : DB :=
  { db with emailsSent := db.emailsSent + 1 }

/-- ChapaService.initiate_payment (listings/services.py lines 20–95).
`suffix` stands for `uuid.uuid4().hex[:8]`; `tx_ref` is
`f"booking_{booking.booking_id}_{suffix}"`. On a 200/`success` provider
response the function itself creates the Payment row
(`Payment.objects.create(...)`, status `'pending'`, amount
`booking.total_price`) and returns it with the checkout URL and tx_ref.
On any failure it returns an error and creates nothing. -/
def ChapaService.initiate_payment (db : DB) (booking : Booking)
    (suffix : String) (resp : ChapaInitResponse) :
    DB × Except String (Payment × String × String) :=
  let tx_ref := "booking_" ++ toString booking.booking_id ++ "_" ++ suffix
  match resp with
  | ChapaInitResponse.networkError msg =>
      (db, Except.error ("Network error: " ++ msg))
  | ChapaInitResponse.httpError code =>
      (db, Except.error ("API request failed with status " ++ toString code))
  | ChapaInitResponse.apiFailure msg => (db, Except.error msg)
  | ChapaInitResponse.ok checkout_url reference =>
      let payment : Payment :=
        { booking_id := booking.booking_id
          transaction_id := tx_ref
          chapa_checkout_url := checkout_url
          amount := booking.total_price
          chapa_reference := reference
          status := PaymentStatus.pending }
      ({ db with payments := db.payments ++ [payment] },
       Except.ok (payment, checkout_url, tx_ref))

/-- ChapaService.update_payment_status (listings/services.py lines 155–183):
on a successful verification result, sets `payment.status` to the mapped
status and saves; when the new status is `'completed'`, sets the booking to
`'confirmed'` and sends the confirmation email; when `'failed'`, sets the
booking to `'canceled'`; otherwise leaves the booking alone. On an
unsuccessful verification result, logs and changes nothing (returns False).
The `Bool` in the result is the function's return value. -/
def ChapaService.update_payment_status (db : DB) (payment : Payment)
    (result : Except String VerifyOk) : DB × Bool :=
  match result with
  | Except.error _ => (db, false)
  | Except.ok v =>
      let payment1 := { payment with status := v.status }
      let db1 := db.savePayment payment1
      match v.status with
      | PaymentStatus.completed =>
          match db1.findBooking payment.booking_id with
          | none => (db1, false)
          | some booking =>
              (((db1.saveBooking { booking with
                  status := BookingStatus.confirmed }).sendEmail), true)
      | PaymentStatus.failed =>
          match db1.findBooking payment.booking_id with
          | none => (db1, false)
          | some booking =>
              ((db1.saveBooking { booking with
                  status := BookingStatus.canceled }), true)
      | PaymentStatus.pending => (db1, true)

/-! ## HTTP endpoints (listings/views.py)

Responses are reduced to the fields the claims speak about: the HTTP status
code, the body's `success` flag (absent in bodies that do not carry one), the
body's error message, and the body's checkout URL. Foreign keys
(`payment.booking`, `booking.listing_id`) are assumed resolvable in a
well-formed database, as the schema's non-null constraints guarantee. -/

/-- Observable part of an HTTP response body. -/
structure HttpResponse where
  statusCode : Nat
  success : Option Bool
  error : Option String
  checkout_url : Option String
deriving DecidableEq, Repr

/-- BookingViewSet.initiate_payment (listings/views.py lines 54–100).
`userId` is `request.user`; `returnUrlValid` is
`PaymentInitiateSerializer(...).is_valid()` (the serializer class is not
under src/; it validates the presence of `return_url`); `suffix` and `resp`
parameterize the ChapaService call. Order of checks follows the code:
booking lookup (404), owner check (403), existing-payment check (400, before
any provider contact), serializer check (400), then the provider call. -/
def BookingViewSet.initiate_payment (db : DB) (userId : Nat) (pk : Nat)
    (returnUrlValid : Bool) (suffix : String) (resp : ChapaInitResponse) :
    DB × HttpResponse :=
  match db.findBooking pk with
  | none => (db, ⟨404, none, some "Not found", none⟩)
  | some booking =>
    if booking.user_id ≠ userId then
      (db, ⟨403, none,
        some "You can only initiate payment for your own bookings", none⟩)
    else
      match db.paymentOfBooking booking.booking_id with
      | some existing =>
          (db, ⟨400, none, some "Payment already exists for this booking",
            some existing.chapa_checkout_url⟩)
      | none =>
        if returnUrlValid then
          match ChapaService.initiate_payment db booking suffix resp with
          | (db1, Except.ok r) =>
              (db1, ⟨201, some true, none, some r.2.1⟩)
          | (db1, Except.error e) =>
              (db1, ⟨400, some false, some e, none⟩)
        else (db, ⟨400, none, some "serializer errors", none⟩)

/-- BookingViewSet.verify_payment (listings/views.py lines 102–147): booking
lookup (404), owner check (403), payment-existence check (404), then an
unconditional ChapaService.verify_payment call followed, on verification
success, by ChapaService.update_payment_status. There is no terminal-state
guard anywhere on this path. -/
def BookingViewSet.verify_payment (db : DB) (userId : Nat) (pk : Nat)
    (resp : ChapaVerifyResponse) : DB × HttpResponse :=
  match db.findBooking pk with
  | none => (db, ⟨404, none, some "Not found", none⟩)
  | some booking =>
    if booking.user_id ≠ userId then
      (db, ⟨403, none,
        some "You can only verify payment for your own bookings", none⟩)
    else
      match db.paymentOfBooking booking.booking_id with
      | none => (db, ⟨404, none, some "No payment found for this booking", none⟩)
      | some payment =>
        match ChapaService.verify_payment resp with
        | Except.ok v =>
            ((ChapaService.update_payment_status db payment (Except.ok v)).1,
             ⟨200, some true, none, none⟩)
        | Except.error e => (db, ⟨400, some false, some e, none⟩)

/-- BookingViewSet.payment_status (listings/views.py lines 149–173): booking
lookup (404); 403 unless the caller is the booking's guest or the listing's
host; 200 with the payment when one exists, 404 otherwise. Read-only. -/
def BookingViewSet.payment_status (db : DB) (userId : Nat) (pk : Nat) :
    DB × HttpResponse :=
  match db.findBooking pk with
  | none => (db, ⟨404, none, some "Not found", none⟩)
  | some booking =>
    if booking.user_id ≠ userId ∧ db.hostOf booking ≠ some userId then
      (db, ⟨403, none,
        some "You do not have permission to view this payment", none⟩)
    else
      match db.paymentOfBooking booking.booking_id with
      | some _ => (db, ⟨200, some true, none, none⟩)
      | none => (db, ⟨404, some false, none, none⟩)

/-- PaymentViewSet.verify_by_transaction_id (listings/views.py lines
191–236). `tx` is `none` when PaymentVerifySerializer rejects the body
(missing `transaction_id`; the serializer class is not under src/). Payment
lookup by transaction_id (404); access allowed to the booking's guest OR the
listing's host (403 otherwise); then the same verify + update path as
BookingViewSet.verify_payment. -/
def PaymentViewSet.verify_by_transaction_id (db : DB) (userId : Nat)
    (tx : Option String) (resp : ChapaVerifyResponse) : DB × HttpResponse :=
  match tx with
  | none => (db, ⟨400, none, some "serializer errors", none⟩)
  | some t =>
    match db.findPaymentByTx t with
    | none => (db, ⟨404, none, some "Payment not found", none⟩)
    | some payment =>
      match db.findBooking payment.booking_id with
      | none => (db, ⟨500, none, some "Internal server error", none⟩)
      | some booking =>
        if booking.user_id ≠ userId ∧ db.hostOf booking ≠ some userId then
          (db, ⟨403, none,
            some "You do not have permission to verify this payment", none⟩)
        else
          match ChapaService.verify_payment resp with
          | Except.ok v =>
              ((ChapaService.update_payment_status db payment (Except.ok v)).1,
               ⟨200, some true, none, none⟩)
          | Except.error e => (db, ⟨400, some false, some e, none⟩)

/-- Parsed webhook body: `json.loads(request.body)` either raises
(`invalidJson`) or yields a dict from which the code reads
`.get('tx_ref')` and `.get('status', '')`. -/
inductive CallbackBody where
  | invalidJson
  | payload (tx_ref : Option String) (status : Option String)
deriving DecidableEq, Repr

/-- Python truthiness of `callback_data.get('tx_ref')`: `None` and the empty
string are falsy. -/
def pyTruthy (s : Option String) : Bool :=
  match s with
  | none => false
  | some t => t ≠ ""

/-- PaymentCallbackView.post (listings/views.py lines 242–279): unauthenticated
webhook. Invalid JSON → 400; missing/empty `tx_ref` → 400; unknown
`tx_ref` → 404 (no Payment is ever created); otherwise the payment's status is
set to `status_mapping(status.lower())` and saved unconditionally (no
terminal-state guard), the booking is confirmed plus one confirmation email on
`completed`, canceled on `failed`, untouched on `pending`, and the response is
200 `{'success': True}`. -/
def PaymentCallbackView.post (db : DB) (body : CallbackBody) :
    DB × HttpResponse :=
  match body with
  | CallbackBody.invalidJson =>
      (db, ⟨400, some false, some "Invalid JSON data", none⟩)
  | CallbackBody.payload tx_ref st =>
    let stat := pyLower (st.getD "")
    if pyTruthy tx_ref then
      match db.findPaymentByTx (tx_ref.getD "") with
      | none => (db, ⟨404, some false, some "Payment not found", none⟩)
      | some payment =>
        let payment1 := { payment with status := status_mapping stat }
        let db1 := db.savePayment payment1
        match payment1.status with
        | PaymentStatus.completed =>
            match db1.findBooking payment.booking_id with
            | none => (db1, ⟨500, some false, some "Internal server error", none⟩)
            | some booking =>
                (((db1.saveBooking { booking with
                    status := BookingStatus.confirmed }).sendEmail),
                 ⟨200, some true, none, none⟩)
        | PaymentStatus.failed =>
            match db1.findBooking payment.booking_id with
            | none => (db1, ⟨500, some false, some "Internal server error", none⟩)
            | some booking =>
                ((db1.saveBooking { booking with
                    status := BookingStatus.canceled }),
                 ⟨200, some true, none, none⟩)
        | PaymentStatus.pending => (db1, ⟨200, some true, none, none⟩)
    else (db, ⟨400, some false, some "Invalid callback data", none⟩)

/-! ## Helper lemmas -/

/-- The overlap queryset is empty exactly when no active booking of the
listing has a range intersecting `[s, e)`. -/
theorem overlappingBookings_isEmpty_iff (bookings : List Booking) (L : Nat)
    (s e : Int) :
    (overlappingBookings bookings (some L) s e).isEmpty = true ↔
      ∀ b ∈ bookings, b.listing_id = L → b.isActive = true →
        ¬ rangesOverlap b.start_date b.end_date s e := by
  unfold overlappingBookings rangesOverlap
  rw [List.isEmpty_iff, List.filter_eq_nil_iff]
  constructor
  · intro hall b hb hL hact hov
    have hc := hall b hb
    simp only [Bool.and_eq_true, decide_eq_true_eq, Option.some.injEq] at hc
    exact hc ⟨⟨⟨hL, hact⟩, hov.1⟩, by omega⟩
  · intro hall b hb
    have hc := hall b hb
    simp only [Bool.and_eq_true, decide_eq_true_eq, Option.some.injEq]
    rintro ⟨⟨⟨hL, hact⟩, hlt⟩, hgt⟩
    exact hc hL hact ⟨hlt, by omega⟩

/-- On a create request with both dates and `s < e`, BookingSerializer.validate
reduces to the overlap check. -/
theorem validate_create_reduces (bookings : List Booking) (L : Nat) (s e : Int)
    (h : s < e) :
    BookingSerializer.validate bookings none ⟨some L, some s, some e, none⟩ =
      (if (overlappingBookings bookings (some L) s e).isEmpty then
        Except.ok ⟨some L, some s, some e, none⟩
      else Except.error "Property is not available for selected dates") := by
  unfold BookingSerializer.validate
  have hne : ¬ s ≥ e := by omega
  simp [hne]

/-- Replacing, in a payment table, every row whose transaction_id equals
`r.transaction_id` by `r` makes `r` the row found by that transaction_id,
provided some row was found before. -/
theorem find?_savePayment (payments : List Payment) (r a : Payment)
    (hf : payments.find? (fun p => p.transaction_id = r.transaction_id)
        = some a) :
    (payments.map
        (fun old => if old.transaction_id = r.transaction_id then r else old)).find?
      (fun p => p.transaction_id = r.transaction_id) = some r := by
  induction payments with
  | nil => simp at hf
  | cons hd t ih =>
    rw [List.map_cons]
    by_cases hh : hd.transaction_id = r.transaction_id
    · simp [hh]
    · rw [List.find?_cons_of_neg _ (by simp [hh])] at hf
      rw [if_neg hh]
      rw [List.find?_cons_of_neg _ (by simp [hh])]
      exact ih hf

/-- Same replacement property for the booking table, keyed on booking_id. -/
theorem find?_saveBooking (bookings : List Booking) (r a : Booking)
    (hf : bookings.find? (fun b => b.booking_id = r.booking_id) = some a) :
    (bookings.map
        (fun old => if old.booking_id = r.booking_id then r else old)).find?
      (fun b => b.booking_id = r.booking_id) = some r := by
  induction bookings with
  | nil => simp at hf
  | cons hd t ih =>
    rw [List.map_cons]
    by_cases hh : hd.booking_id = r.booking_id
    · simp [hh]
    · rw [List.find?_cons_of_neg _ (by simp [hh])] at hf
      rw [if_neg hh]
      rw [List.find?_cons_of_neg _ (by simp [hh])]
      exact ih hf

/-! ## C1 -/

/-- C1: booking creation preserves the no-overlap invariant. For every
listing and booking-set, a creation request with `s < e` is admitted by
BookingSerializer.validate iff no existing active (pending/confirmed) booking
on that listing overlaps `[s, e)` in the half-open sense (canceled bookings
and touching endpoints never block); consequently an admitted creation keeps
the per-listing no-overlap invariant. -/
theorem booking_creation_preserves_no_overlap (existing : List Booking)
    (L userId newId : Nat) (listing : Listing) (s e : Int)
    (h : s < e) (hL : listing.listing_id = L) :
    (admits (BookingSerializer.validate existing none
        ⟨some L, some s, some e, none⟩) = true ↔
      ∀ b ∈ existing, b.listing_id = L → b.isActive = true →
        ¬ rangesOverlap b.start_date b.end_date s e)
    ∧ (noOverlapInvariant existing L →
        admits (BookingSerializer.validate existing none
          ⟨some L, some s, some e, none⟩) = true →
        noOverlapInvariant
          (BookingSerializer.create userId listing s e newId :: existing) L) := by
  have hiff : admits (BookingSerializer.validate existing none
      ⟨some L, some s, some e, none⟩) = true ↔
      ∀ b ∈ existing, b.listing_id = L → b.isActive = true →
        ¬ rangesOverlap b.start_date b.end_date s e := by
    rw [validate_create_reduces existing L s e h]
    rw [← overlappingBookings_isEmpty_iff existing L s e]
    by_cases hemp : (overlappingBookings existing (some L) s e).isEmpty = true
    · simp [hemp, admits]
    · simp only [Bool.not_eq_true] at hemp
      simp [hemp, admits]
  refine ⟨hiff, fun hinv hadm => ?_⟩
  have hnone := hiff.mp hadm
  unfold noOverlapInvariant at hinv ⊢
  refine List.Pairwise.cons (fun b hb => ?_) hinv
  intro _ hbL _ hbact hov
  have hnew : (BookingSerializer.create userId listing s e newId).start_date = s
      ∧ (BookingSerializer.create userId listing s e newId).end_date = e := by
    constructor <;> rfl
  rcases hov with ⟨h1, h2⟩
  rw [hnew.1] at h1
  rw [hnew.2] at h2
  exact hnone b hb hbL hbact ⟨h2, h1⟩

/-- Concrete instance of C1: with an existing confirmed booking on
`[1, 5)` of listing 1, the touching request `[5, 10)` is admitted. -/
theorem booking_creation_preserves_no_overlap_witness :
    admits (BookingSerializer.validate
      [{ booking_id := 1, listing_id := 1, user_id := 2, start_date := 1,
         end_date := 5, total_price := 400, status := BookingStatus.confirmed }]
      none ⟨some 1, some 5, some 10, none⟩) = true :=
  (booking_creation_preserves_no_overlap
    [{ booking_id := 1, listing_id := 1, user_id := 2, start_date := 1,
       end_date := 5, total_price := 400, status := BookingStatus.confirmed }]
    1 3 7 { listing_id := 1, host_id := 9, price_per_night := 100 } 5 10
    (by decide) rfl).1.mpr (by decide)

/-! ## C8 -/

/-- C8: for `s < e` the created booking's total price is
`(e − s) × price_per_night` (whole nights times the nightly rate, exact in
cents, i.e. fixed-point with 2 fractional places), stamped by
BookingSerializer.create; a range with `s ≥ e` is rejected by
BookingSerializer.validate with the date-ordering validation error; and a
serializer update never changes `total_price` (it is read-only and absent
from `validated_data`). -/
theorem booking_price_stamped_once (userId newId : Nat) (listing : Listing)
    (s e : Int) (bookings : List Booking) (instancePk : Option Nat)
    (b : Booking) (attrs : BookingAttrs) (h : s < e) :
    (BookingSerializer.create userId listing s e newId).total_price
        = (e - s) * listing.price_per_night
    ∧ (BookingSerializer.create userId listing s e newId).status
        = BookingStatus.pending
    ∧ (∀ s2 e2 : Int, s2 ≥ e2 →
        BookingSerializer.validate bookings instancePk
            ⟨some listing.listing_id, some s2, some e2, none⟩
          = Except.error "End date must be after start date")
    ∧ (BookingSerializer.update b attrs).total_price = b.total_price := by
  refine ⟨rfl, rfl, fun s2 e2 hge => ?_, rfl⟩
  unfold BookingSerializer.validate
  simp [hge]

/-- Concrete instance of C8: five nights at rate 100.00 (10000 cents) cost
500.00, and a zero-night range is rejected. -/
theorem booking_price_stamped_once_witness :
    (BookingSerializer.create 3
        { listing_id := 1, host_id := 9, price_per_night := 10000 }
        2 7 11).total_price = 50000
    ∧ BookingSerializer.validate []
        (none : Option Nat) ⟨some 1, some 4, some 4, none⟩
      = Except.error "End date must be after start date" := by
  have hc := booking_price_stamped_once 3 11
    { listing_id := 1, host_id := 9, price_per_night := 10000 }
    2 7 [] none
    { booking_id := 5, listing_id := 1, user_id := 3, start_date := 2,
      end_date := 7, total_price := 50000, status := BookingStatus.pending }
    ⟨none, none, none, none⟩ (by decide)
  exact ⟨by rw [hc.1]; decide, hc.2.2.1 4 4 (by decide)⟩

/-! ## C10 -/

/-- C10 (implicit): when the submitted attributes lack `start_date` or
`end_date` (or both), both booking serializers' validate methods perform no
date-ordering check and no overlap check and admit the attributes unchanged,
for every existing booking set and every bound instance. -/
theorem partial_update_skips_availability_check (bookings : List Booking)
    (instancePk : Option Nat) (attrs : BookingAttrs)
    (h : attrs.start_date = none ∨ attrs.end_date = none) :
    BookingSerializer.validate bookings instancePk attrs = Except.ok attrs
    ∧ BookingCreateSerializer.validate bookings attrs = Except.ok attrs := by
  unfold BookingSerializer.validate BookingCreateSerializer.validate
  rcases hs : attrs.start_date with _ | s <;>
    rcases he : attrs.end_date with _ | e <;>
      simp_all

/-- Concrete instance of C10: an update moving only `end_date` so that the
stored range `[1, 20)` overlaps the other active booking `[10, 15)` of the
same listing is admitted without any check. -/
theorem partial_update_skips_availability_check_witness :
    (BookingSerializer.validate
        [{ booking_id := 2, listing_id := 1, user_id := 4, start_date := 10,
           end_date := 15, total_price := 500, status := BookingStatus.pending }]
        (some 1) ⟨none, none, some 20, none⟩
      = Except.ok ⟨none, none, some 20, none⟩)
    ∧ rangesOverlap 1 20 10 15 := by
  have hc := partial_update_skips_availability_check
    [{ booking_id := 2, listing_id := 1, user_id := 4, start_date := 10,
       end_date := 15, total_price := 500, status := BookingStatus.pending }]
    (some 1) ⟨none, none, some 20, none⟩ (Or.inl rfl)
  exact ⟨hc.1, by decide⟩

/-! ## Helper lemmas for the payment state machine -/

theorem findBooking_savePayment (db : DB) (q : Payment) (pk : Nat) :
    (db.savePayment q).findBooking pk = db.findBooking pk := rfl

theorem findPaymentByTx_saveBooking (db : DB) (r : Booking) (tx : String) :
    (db.saveBooking r).findPaymentByTx tx = db.findPaymentByTx tx := rfl

theorem findPaymentByTx_sendEmail (db : DB) (tx : String) :
    db.sendEmail.findPaymentByTx tx = db.findPaymentByTx tx := rfl

theorem findBooking_sendEmail (db : DB) (pk : Nat) :
    db.sendEmail.findBooking pk = db.findBooking pk := rfl

theorem emailsSent_savePayment (db : DB) (q : Payment) :
    (db.savePayment q).emailsSent = db.emailsSent := rfl

theorem emailsSent_saveBooking (db : DB) (r : Booking) :
    (db.saveBooking r).emailsSent = db.emailsSent := rfl

theorem bookings_savePayment (db : DB) (q : Payment) :
    (db.savePayment q).bookings = db.bookings := rfl

/-- Overwriting a record field with the value it already has is the
identity. -/
theorem payment_eta (p : Payment) (st : PaymentStatus) (h : p.status = st) :
    ({ p with status := st } : Payment) = p := by
  cases p
  subst h
  rfl

theorem booking_eta (b : Booking) (st : BookingStatus) (h : b.status = st) :
    ({ b with status := st } : Booking) = b := by
  cases b
  subst h
  rfl

theorem findPaymentByTx_savePayment_self (db : DB) (p q : Payment)
    (hfp : db.findPaymentByTx q.transaction_id = some p) :
    (db.savePayment q).findPaymentByTx q.transaction_id = some q :=
  find?_savePayment db.payments q p hfp

theorem findBooking_saveBooking_self (db : DB) (b r : Booking)
    (hfb : db.findBooking r.booking_id = some b) :
    (db.saveBooking r).findBooking r.booking_id = some r :=
  find?_saveBooking db.bookings r b hfb

/-- A found payment satisfies the lookup key. -/
theorem findPaymentByTx_key (db : DB) (tx : String) (p : Payment)
    (h : db.findPaymentByTx tx = some p) : p.transaction_id = tx := by
  unfold DB.findPaymentByTx at h
  have h2 := List.find?_some h
  simpa using h2

/-- A found booking satisfies the lookup key. -/
theorem findBooking_key (db : DB) (pk : Nat) (b : Booking)
    (h : db.findBooking pk = some b) : b.booking_id = pk := by
  unfold DB.findBooking at h
  have h2 := List.find?_some h
  simpa using h2

/-- A found payment satisfies the booking-key lookup. -/
theorem paymentOfBooking_key (db : DB) (bid : Nat) (p : Payment)
    (h : db.paymentOfBooking bid = some p) : p.booking_id = bid := by
  unfold DB.paymentOfBooking at h
  have h2 := List.find?_some h
  simpa using h2

/-- ChapaService.update_payment_status on a `completed` mapped status. -/
theorem update_payment_status_completed (db : DB) (p : Payment) (b : Booking)
    (amt : Option Int) (ref : Option String)
    (hfb : db.findBooking p.booking_id = some b) :
    ChapaService.update_payment_status db p
        (Except.ok ⟨PaymentStatus.completed, amt, ref⟩)
      = (((db.savePayment { p with status := PaymentStatus.completed }).saveBooking
            { b with status := BookingStatus.confirmed }).sendEmail, true) := by
  unfold ChapaService.update_payment_status
  simp only [findBooking_savePayment, hfb]

/-- ChapaService.update_payment_status on a `failed` mapped status. -/
theorem update_payment_status_failed (db : DB) (p : Payment) (b : Booking)
    (amt : Option Int) (ref : Option String)
    (hfb : db.findBooking p.booking_id = some b) :
    ChapaService.update_payment_status db p
        (Except.ok ⟨PaymentStatus.failed, amt, ref⟩)
      = ((db.savePayment { p with status := PaymentStatus.failed }).saveBooking
            { b with status := BookingStatus.canceled }, true) := by
  unfold ChapaService.update_payment_status
  simp only [findBooking_savePayment, hfb]

/-- ChapaService.update_payment_status on a `pending` mapped status. -/
theorem update_payment_status_pending (db : DB) (p : Payment)
    (amt : Option Int) (ref : Option String) :
    ChapaService.update_payment_status db p
        (Except.ok ⟨PaymentStatus.pending, amt, ref⟩)
      = (db.savePayment { p with status := PaymentStatus.pending }, true) := by
  unfold ChapaService.update_payment_status
  simp only []

/-- PaymentCallbackView.post on a found payment whose incoming status maps to
`completed`. -/
theorem callback_step_completed (db : DB) (p : Payment) (b : Booking)
    (st : Option String) (htx : p.transaction_id ≠ "")
    (hfp : db.findPaymentByTx p.transaction_id = some p)
    (hfb : db.findBooking p.booking_id = some b)
    (hm : status_mapping (pyLower (st.getD "")) = PaymentStatus.completed) :
    PaymentCallbackView.post db
        (CallbackBody.payload (some p.transaction_id) st)
      = (((db.savePayment { p with status := PaymentStatus.completed }).saveBooking
            { b with status := BookingStatus.confirmed }).sendEmail,
         ⟨200, some true, none, none⟩) := by
  unfold PaymentCallbackView.post
  simp only [pyTruthy, Option.getD_some, hm, decide_eq_true_eq]
  rw [if_pos htx, hfp]
  simp only [findBooking_savePayment, hfb]

/-- PaymentCallbackView.post on a found payment whose incoming status maps to
`failed`. -/
theorem callback_step_failed (db : DB) (p : Payment) (b : Booking)
    (st : Option String) (htx : p.transaction_id ≠ "")
    (hfp : db.findPaymentByTx p.transaction_id = some p)
    (hfb : db.findBooking p.booking_id = some b)
    (hm : status_mapping (pyLower (st.getD "")) = PaymentStatus.failed) :
    PaymentCallbackView.post db
        (CallbackBody.payload (some p.transaction_id) st)
      = ((db.savePayment { p with status := PaymentStatus.failed }).saveBooking
            { b with status := BookingStatus.canceled },
         ⟨200, some true, none, none⟩) := by
  unfold PaymentCallbackView.post
  simp only [pyTruthy, Option.getD_some, hm, decide_eq_true_eq]
  rw [if_pos htx, hfp]
  simp only [findBooking_savePayment, hfb]

/-- PaymentCallbackView.post on a found payment whose incoming status maps to
`pending`. -/
theorem callback_step_pending (db : DB) (p : Payment)
    (st : Option String) (htx : p.transaction_id ≠ "")
    (hfp : db.findPaymentByTx p.transaction_id = some p)
    (hm : status_mapping (pyLower (st.getD "")) = PaymentStatus.pending) :
    PaymentCallbackView.post db
        (CallbackBody.payload (some p.transaction_id) st)
      = (db.savePayment { p with status := PaymentStatus.pending },
         ⟨200, some true, none, none⟩) := by
  unfold PaymentCallbackView.post
  simp only [pyTruthy, Option.getD_some, hm, decide_eq_true_eq]
  rw [if_pos htx, hfp]

/-- BookingViewSet.verify_payment when the booking is found, the caller is
the guest, a payment exists, and the ChapaService verification succeeds: the
endpoint applies ChapaService.update_payment_status and answers 200. -/
theorem verify_view_ok (db : DB) (u pk : Nat) (b : Booking) (p : Payment)
    (resp : ChapaVerifyResponse) (v : VerifyOk)
    (hb : db.findBooking pk = some b) (hu : b.user_id = u)
    (hpb : db.paymentOfBooking b.booking_id = some p)
    (hv : ChapaService.verify_payment resp = Except.ok v) :
    BookingViewSet.verify_payment db u pk resp
      = ((ChapaService.update_payment_status db p (Except.ok v)).1,
         ⟨200, some true, none, none⟩) := by
  unfold BookingViewSet.verify_payment
  rw [hb]
  simp only [hu, hpb, hv, ne_eq, not_true_eq_false, if_false]

/-- BookingViewSet.verify_payment when the ChapaService verification fails
(network error, HTTP error or provider business failure): 400 and no state
change. -/
theorem verify_view_error (db : DB) (u pk : Nat) (b : Booking) (p : Payment)
    (resp : ChapaVerifyResponse) (e : String)
    (hb : db.findBooking pk = some b) (hu : b.user_id = u)
    (hpb : db.paymentOfBooking b.booking_id = some p)
    (hv : ChapaService.verify_payment resp = Except.error e) :
    BookingViewSet.verify_payment db u pk resp
      = (db, ⟨400, some false, some e, none⟩) := by
  unfold BookingViewSet.verify_payment
  rw [hb]
  simp only [hu, hpb, hv, ne_eq, not_true_eq_false, if_false]

/-! ## C3 -/

/-- C3: for a non-terminal (pending) Payment, the Verify endpoint and the
webhook Callback apply the shared status-mapping and transition rule:
provider status `success` ⇒ Payment completed, Booking confirmed, exactly one
new notification; `failed` ⇒ Payment failed, Booking canceled, no
notification; `pending` ⇒ Payment and Booking unchanged, no notification;
every other provider status maps to `pending` (never to `completed`) with the
same no-change outcome. -/
theorem verify_callback_shared_transition_rule (db : DB) (u pk : Nat)
    (b : Booking) (p : Payment) (s : String) (amt : Option Int)
    (ref : Option String)
    (hb : db.findBooking pk = some b) (hu : b.user_id = u)
    (hpb : db.paymentOfBooking b.booking_id = some p)
    (hfp : db.findPaymentByTx p.transaction_id = some p)
    (hpend : p.status = PaymentStatus.pending)
    (htx : p.transaction_id ≠ "") :
    (pyLower s = "success" →
      ((BookingViewSet.verify_payment db u pk
          (ChapaVerifyResponse.ok s amt ref)).1.findPaymentByTx p.transaction_id
          = some { p with status := PaymentStatus.completed })
      ∧ ((BookingViewSet.verify_payment db u pk
          (ChapaVerifyResponse.ok s amt ref)).1.findBooking b.booking_id
          = some { b with status := BookingStatus.confirmed })
      ∧ ((BookingViewSet.verify_payment db u pk
          (ChapaVerifyResponse.ok s amt ref)).1.emailsSent = db.emailsSent + 1)
      ∧ ((PaymentCallbackView.post db (CallbackBody.payload
          (some p.transaction_id) (some s))).1.findPaymentByTx p.transaction_id
          = some { p with status := PaymentStatus.completed })
      ∧ ((PaymentCallbackView.post db (CallbackBody.payload
          (some p.transaction_id) (some s))).1.findBooking b.booking_id
          = some { b with status := BookingStatus.confirmed })
      ∧ ((PaymentCallbackView.post db (CallbackBody.payload
          (some p.transaction_id) (some s))).1.emailsSent = db.emailsSent + 1))
    ∧ (pyLower s = "failed" →
      ((BookingViewSet.verify_payment db u pk
          (ChapaVerifyResponse.ok s amt ref)).1.findPaymentByTx p.transaction_id
          = some { p with status := PaymentStatus.failed })
      ∧ ((BookingViewSet.verify_payment db u pk
          (ChapaVerifyResponse.ok s amt ref)).1.findBooking b.booking_id
          = some { b with status := BookingStatus.canceled })
      ∧ ((BookingViewSet.verify_payment db u pk
          (ChapaVerifyResponse.ok s amt ref)).1.emailsSent = db.emailsSent)
      ∧ ((PaymentCallbackView.post db (CallbackBody.payload
          (some p.transaction_id) (some s))).1.findPaymentByTx p.transaction_id
          = some { p with status := PaymentStatus.failed })
      ∧ ((PaymentCallbackView.post db (CallbackBody.payload
          (some p.transaction_id) (some s))).1.findBooking b.booking_id
          = some { b with status := BookingStatus.canceled })
      ∧ ((PaymentCallbackView.post db (CallbackBody.payload
          (some p.transaction_id) (some s))).1.emailsSent = db.emailsSent))
    ∧ (pyLower s = "pending" →
      ((BookingViewSet.verify_payment db u pk
          (ChapaVerifyResponse.ok s amt ref)).1.findPaymentByTx p.transaction_id
          = some p)
      ∧ ((BookingViewSet.verify_payment db u pk
          (ChapaVerifyResponse.ok s amt ref)).1.bookings = db.bookings)
      ∧ ((BookingViewSet.verify_payment db u pk
          (ChapaVerifyResponse.ok s amt ref)).1.emailsSent = db.emailsSent)
      ∧ ((PaymentCallbackView.post db (CallbackBody.payload
          (some p.transaction_id) (some s))).1.findPaymentByTx p.transaction_id
          = some p)
      ∧ ((PaymentCallbackView.post db (CallbackBody.payload
          (some p.transaction_id) (some s))).1.bookings = db.bookings)
      ∧ ((PaymentCallbackView.post db (CallbackBody.payload
          (some p.transaction_id) (some s))).1.emailsSent = db.emailsSent))
    ∧ (pyLower s ≠ "success" → pyLower s ≠ "failed" → pyLower s ≠ "pending" →
      status_mapping (pyLower s) = PaymentStatus.pending
      ∧ ((BookingViewSet.verify_payment db u pk
          (ChapaVerifyResponse.ok s amt ref)).1.findPaymentByTx p.transaction_id
          = some p)
      ∧ ((BookingViewSet.verify_payment db u pk
          (ChapaVerifyResponse.ok s amt ref)).1.bookings = db.bookings)
      ∧ ((BookingViewSet.verify_payment db u pk
          (ChapaVerifyResponse.ok s amt ref)).1.emailsSent = db.emailsSent)
      ∧ ((PaymentCallbackView.post db (CallbackBody.payload
          (some p.transaction_id) (some s))).1.findPaymentByTx p.transaction_id
          = some p)
      ∧ ((PaymentCallbackView.post db (CallbackBody.payload
          (some p.transaction_id) (some s))).1.bookings = db.bookings)
      ∧ ((PaymentCallbackView.post db (CallbackBody.payload
          (some p.transaction_id) (some s))).1.emailsSent = db.emailsSent)) := by
  have hbid : b.booking_id = pk := findBooking_key db pk b hb
  have hkey : p.booking_id = b.booking_id := paymentOfBooking_key db b.booking_id p hpb
  have hbb : db.findBooking b.booking_id = some b := by rw [hbid]; exact hb
  have hfb : db.findBooking p.booking_id = some b := by rw [hkey]; exact hbb
  have pendCore : status_mapping (pyLower s) = PaymentStatus.pending →
      ((BookingViewSet.verify_payment db u pk
          (ChapaVerifyResponse.ok s amt ref)).1.findPaymentByTx p.transaction_id
          = some p)
      ∧ ((BookingViewSet.verify_payment db u pk
          (ChapaVerifyResponse.ok s amt ref)).1.bookings = db.bookings)
      ∧ ((BookingViewSet.verify_payment db u pk
          (ChapaVerifyResponse.ok s amt ref)).1.emailsSent = db.emailsSent)
      ∧ ((PaymentCallbackView.post db (CallbackBody.payload
          (some p.transaction_id) (some s))).1.findPaymentByTx p.transaction_id
          = some p)
      ∧ ((PaymentCallbackView.post db (CallbackBody.payload
          (some p.transaction_id) (some s))).1.bookings = db.bookings)
      ∧ ((PaymentCallbackView.post db (CallbackBody.payload
          (some p.transaction_id) (some s))).1.emailsSent = db.emailsSent) := by
    intro hm
    have hpp : ({ p with status := PaymentStatus.pending } : Payment) = p :=
      payment_eta p PaymentStatus.pending hpend
    have hmv : ChapaService.verify_payment (ChapaVerifyResponse.ok s amt ref)
        = Except.ok ⟨PaymentStatus.pending, amt, ref⟩ := by
      rw [show ChapaService.verify_payment (ChapaVerifyResponse.ok s amt ref)
          = Except.ok ⟨status_mapping (pyLower s), amt, ref⟩ from rfl, hm]
    have hV := verify_view_ok db u pk b p (ChapaVerifyResponse.ok s amt ref)
      ⟨PaymentStatus.pending, amt, ref⟩ hb hu hpb hmv
    have hK := callback_step_pending db p (some s) htx hfp hm
    rw [hV, hK, update_payment_status_pending db p amt ref, hpp]
    exact ⟨findPaymentByTx_savePayment_self db p p hfp, rfl, rfl,
           findPaymentByTx_savePayment_self db p p hfp, rfl, rfl⟩
  refine ⟨?_, ?_, fun hs => pendCore (by rw [hs]; rfl), fun h1 h2 h3 => ?_⟩
  · intro hs
    have hmv : ChapaService.verify_payment (ChapaVerifyResponse.ok s amt ref)
        = Except.ok ⟨PaymentStatus.completed, amt, ref⟩ := by
      rw [show ChapaService.verify_payment (ChapaVerifyResponse.ok s amt ref)
          = Except.ok ⟨status_mapping (pyLower s), amt, ref⟩ from rfl, hs]
      rfl
    have hm : status_mapping (pyLower ((some s).getD ""))
        = PaymentStatus.completed := by rw [Option.getD_some, hs]; rfl
    have hV := verify_view_ok db u pk b p (ChapaVerifyResponse.ok s amt ref)
      ⟨PaymentStatus.completed, amt, ref⟩ hb hu hpb hmv
    have hK := callback_step_completed db p b (some s) htx hfp hfb hm
    rw [hV, hK, update_payment_status_completed db p b amt ref hfb]
    rw [findPaymentByTx_sendEmail, findPaymentByTx_saveBooking,
        findBooking_sendEmail]
    refine ⟨findPaymentByTx_savePayment_self db p _ hfp, ?_, rfl,
            findPaymentByTx_savePayment_self db p _ hfp, ?_, rfl⟩ <;>
      exact findBooking_saveBooking_self (db.savePayment
        { p with status := PaymentStatus.completed }) b
        { b with status := BookingStatus.confirmed } hbb
  · intro hs
    have hmv : ChapaService.verify_payment (ChapaVerifyResponse.ok s amt ref)
        = Except.ok ⟨PaymentStatus.failed, amt, ref⟩ := by
      rw [show ChapaService.verify_payment (ChapaVerifyResponse.ok s amt ref)
          = Except.ok ⟨status_mapping (pyLower s), amt, ref⟩ from rfl, hs]
      rfl
    have hm : status_mapping (pyLower ((some s).getD ""))
        = PaymentStatus.failed := by rw [Option.getD_some, hs]; rfl
    have hV := verify_view_ok db u pk b p (ChapaVerifyResponse.ok s amt ref)
      ⟨PaymentStatus.failed, amt, ref⟩ hb hu hpb hmv
    have hK := callback_step_failed db p b (some s) htx hfp hfb hm
    rw [hV, hK, update_payment_status_failed db p b amt ref hfb]
    rw [findPaymentByTx_saveBooking]
    refine ⟨findPaymentByTx_savePayment_self db p _ hfp, ?_, rfl,
            findPaymentByTx_savePayment_self db p _ hfp, ?_, rfl⟩ <;>
      exact findBooking_saveBooking_self (db.savePayment
        { p with status := PaymentStatus.failed }) b
        { b with status := BookingStatus.canceled } hbb
  · have hm : status_mapping (pyLower s) = PaymentStatus.pending := by
      unfold status_mapping
      split <;> simp_all
    exact ⟨hm, pendCore hm⟩

/-- Concrete instance of C3: a pending payment verified with provider status
`success` completes the payment, confirms the booking and sends exactly one
notification. -/
theorem verify_callback_shared_transition_rule_witness :
    (BookingViewSet.verify_payment
        ⟨[⟨1, 9, 10000⟩],
         [⟨1, 1, 3, 2, 7, 50000, BookingStatus.pending⟩],
         [⟨1, "booking_1_ab", "u", 50000, none, PaymentStatus.pending⟩], 0⟩
        3 1 (ChapaVerifyResponse.ok "success" none none)).1.emailsSent = 0 + 1 :=
  ((verify_callback_shared_transition_rule
      ⟨[⟨1, 9, 10000⟩],
       [⟨1, 1, 3, 2, 7, 50000, BookingStatus.pending⟩],
       [⟨1, "booking_1_ab", "u", 50000, none, PaymentStatus.pending⟩], 0⟩
      3 1 ⟨1, 1, 3, 2, 7, 50000, BookingStatus.pending⟩
      ⟨1, "booking_1_ab", "u", 50000, none, PaymentStatus.pending⟩
      "success" none none (by decide) rfl (by decide) (by decide) rfl
      (by decide)).1 (by decide)).2.2.1

/-! ## C2 -/

/-- C2 (amended): neither Verify nor Callback guards on terminal payment
state. A replayed `success` Callback on a completed Payment with confirmed
Booking is acknowledged with 200 `{'success': true}` and leaves the stored
statuses at completed/confirmed, but fires the confirmation notification
again; a Verify call on the same terminal Payment performs the provider call
again (its outcome depends on the provider response) and, on a `success`
response, reapplies the transition and fires the notification once more. -/
theorem terminal_replay_refires_notification (db : DB) (u pk : Nat)
    (b : Booking) (p : Payment) (amt : Option Int) (ref : Option String)
    (msg : String)
    (hb : db.findBooking pk = some b) (hu : b.user_id = u)
    (hpb : db.paymentOfBooking b.booking_id = some p)
    (hfp : db.findPaymentByTx p.transaction_id = some p)
    (hps : p.status = PaymentStatus.completed)
    (hbs : b.status = BookingStatus.confirmed)
    (htx : p.transaction_id ≠ "") :
    ((PaymentCallbackView.post db (CallbackBody.payload
        (some p.transaction_id) (some "success"))).2
      = ⟨200, some true, none, none⟩)
    ∧ ((PaymentCallbackView.post db (CallbackBody.payload
        (some p.transaction_id) (some "success"))).1.findPaymentByTx
          p.transaction_id = some p)
    ∧ ((PaymentCallbackView.post db (CallbackBody.payload
        (some p.transaction_id) (some "success"))).1.findBooking
          b.booking_id = some b)
    ∧ ((PaymentCallbackView.post db (CallbackBody.payload
        (some p.transaction_id) (some "success"))).1.emailsSent
      = db.emailsSent + 1)
    ∧ ((BookingViewSet.verify_payment db u pk
        (ChapaVerifyResponse.ok "success" amt ref)).1.emailsSent
      = db.emailsSent + 1)
    ∧ ((BookingViewSet.verify_payment db u pk
        (ChapaVerifyResponse.ok "success" amt ref)).2.statusCode = 200)
    ∧ (BookingViewSet.verify_payment db u pk
        (ChapaVerifyResponse.networkError msg)
      = (db, ⟨400, some false, some ("Network error: " ++ msg), none⟩)) := by
  have hbid : b.booking_id = pk := findBooking_key db pk b hb
  have hkey : p.booking_id = b.booking_id :=
    paymentOfBooking_key db b.booking_id p hpb
  have hbb : db.findBooking b.booking_id = some b := by rw [hbid]; exact hb
  have hfb : db.findBooking p.booking_id = some b := by rw [hkey]; exact hbb
  have hpp : ({ p with status := PaymentStatus.completed } : Payment) = p :=
    payment_eta p PaymentStatus.completed hps
  have hbc : ({ b with status := BookingStatus.confirmed } : Booking) = b :=
    booking_eta b BookingStatus.confirmed hbs
  have hmsl : status_mapping (pyLower "success") = PaymentStatus.completed := by
    decide
  have hK := callback_step_completed db p b (some "success") htx hfp hfb
    (by rw [Option.getD_some]; exact hmsl)
  rw [hpp, hbc] at hK
  have hmv : ChapaService.verify_payment
      (ChapaVerifyResponse.ok "success" amt ref)
      = Except.ok ⟨PaymentStatus.completed, amt, ref⟩ := by
    rw [show ChapaService.verify_payment
        (ChapaVerifyResponse.ok "success" amt ref)
        = Except.ok ⟨status_mapping (pyLower "success"), amt, ref⟩ from rfl,
      hmsl]
  have hV := verify_view_ok db u pk b p
    (ChapaVerifyResponse.ok "success" amt ref)
    ⟨PaymentStatus.completed, amt, ref⟩ hb hu hpb hmv
  have hupd := update_payment_status_completed db p b amt ref hfb
  rw [hpp, hbc] at hupd
  have hE := verify_view_error db u pk b p
    (ChapaVerifyResponse.networkError msg) ("Network error: " ++ msg)
    hb hu hpb rfl
  rw [hK, hV, hupd, hE]
  refine ⟨rfl, ?_, ?_, rfl, rfl, rfl, rfl⟩
  · rw [findPaymentByTx_sendEmail, findPaymentByTx_saveBooking]
    exact findPaymentByTx_savePayment_self db p p hfp
  · rw [findBooking_sendEmail]
    exact findBooking_saveBooking_self (db.savePayment p) b b hbb

/-- Concrete instance of the amended C2: replaying a `success` callback
against an already-completed payment acknowledges 200 but sends a second
notification. -/
theorem terminal_replay_refires_notification_witness :
    ((PaymentCallbackView.post
        ⟨[⟨1, 9, 10000⟩],
         [⟨1, 1, 3, 2, 7, 50000, BookingStatus.confirmed⟩],
         [⟨1, "booking_1_ab", "u", 50000, none, PaymentStatus.completed⟩], 1⟩
        (CallbackBody.payload (some "booking_1_ab") (some "success"))).2
      = ⟨200, some true, none, none⟩)
    ∧ ((PaymentCallbackView.post
        ⟨[⟨1, 9, 10000⟩],
         [⟨1, 1, 3, 2, 7, 50000, BookingStatus.confirmed⟩],
         [⟨1, "booking_1_ab", "u", 50000, none, PaymentStatus.completed⟩], 1⟩
        (CallbackBody.payload (some "booking_1_ab") (some "success"))).1.emailsSent
      = 1 + 1) :=
  have hc := terminal_replay_refires_notification
    ⟨[⟨1, 9, 10000⟩],
     [⟨1, 1, 3, 2, 7, 50000, BookingStatus.confirmed⟩],
     [⟨1, "booking_1_ab", "u", 50000, none, PaymentStatus.completed⟩], 1⟩
    3 1 ⟨1, 1, 3, 2, 7, 50000, BookingStatus.confirmed⟩
    ⟨1, "booking_1_ab", "u", 50000, none, PaymentStatus.completed⟩
    none none "t" (by decide) rfl (by decide) (by decide) rfl rfl (by decide)
  ⟨hc.1, hc.2.2.2.1⟩

/-- Counterexample to C2 as stated: for a terminal (failed) Payment with a
canceled Booking, a Verify call with a `success` provider response does not
return the stored state — it consults the provider, overwrites the failed
Payment to completed, confirms the canceled Booking, and fires a
notification. -/
theorem terminal_replay_counterexample :
    ((BookingViewSet.verify_payment
        ⟨[⟨1, 9, 10000⟩],
         [⟨1, 1, 3, 2, 7, 50000, BookingStatus.canceled⟩],
         [⟨1, "booking_1_ab", "u", 50000, none, PaymentStatus.failed⟩], 5⟩
        3 1 (ChapaVerifyResponse.ok "success" none none)).1.payments
      = [⟨1, "booking_1_ab", "u", 50000, none, PaymentStatus.completed⟩])
    ∧ ((BookingViewSet.verify_payment
        ⟨[⟨1, 9, 10000⟩],
         [⟨1, 1, 3, 2, 7, 50000, BookingStatus.canceled⟩],
         [⟨1, "booking_1_ab", "u", 50000, none, PaymentStatus.failed⟩], 5⟩
        3 1 (ChapaVerifyResponse.ok "success" none none)).1.bookings
      = [⟨1, 1, 3, 2, 7, 50000, BookingStatus.confirmed⟩])
    ∧ ((BookingViewSet.verify_payment
        ⟨[⟨1, 9, 10000⟩],
         [⟨1, 1, 3, 2, 7, 50000, BookingStatus.canceled⟩],
         [⟨1, "booking_1_ab", "u", 50000, none, PaymentStatus.failed⟩], 5⟩
        3 1 (ChapaVerifyResponse.ok "success" none none)).1.emailsSent = 6) := by
  decide

/-! ## C4 -/

/-- C4 (amended): when the provider call during Verify fails — network or
timeout error, non-200 HTTP status (malformed exchange), or a
provider-reported business failure — the endpoint answers HTTP 400 with the
error message and mutates no state (the database, and hence the pending
Payment, is returned untouched). The three failure modes share the same 400
status code: a network error is not distinguished from a business rejection
and is not surfaced as a 5xx. -/
theorem verify_gateway_error_no_mutation (db : DB) (u pk : Nat) (b : Booking)
    (p : Payment) (msg msg2 : String) (code : Nat)
    (hb : db.findBooking pk = some b) (hu : b.user_id = u)
    (hpb : db.paymentOfBooking b.booking_id = some p) :
    (BookingViewSet.verify_payment db u pk
        (ChapaVerifyResponse.networkError msg)
      = (db, ⟨400, some false, some ("Network error: " ++ msg), none⟩))
    ∧ (BookingViewSet.verify_payment db u pk (ChapaVerifyResponse.httpError code)
      = (db, ⟨400, some false,
          some ("API request failed with status " ++ toString code), none⟩))
    ∧ (BookingViewSet.verify_payment db u pk (ChapaVerifyResponse.apiFailure msg2)
      = (db, ⟨400, some false, some msg2, none⟩)) :=
  ⟨verify_view_error db u pk b p (ChapaVerifyResponse.networkError msg)
      ("Network error: " ++ msg) hb hu hpb rfl,
   verify_view_error db u pk b p (ChapaVerifyResponse.httpError code)
      ("API request failed with status " ++ toString code) hb hu hpb rfl,
   verify_view_error db u pk b p (ChapaVerifyResponse.apiFailure msg2)
      msg2 hb hu hpb rfl⟩

/-- Concrete instance of the amended C4: a network error during Verify leaves
the database untouched and answers 400. -/
theorem verify_gateway_error_no_mutation_witness :
    BookingViewSet.verify_payment
        ⟨[⟨1, 9, 10000⟩],
         [⟨1, 1, 3, 2, 7, 50000, BookingStatus.pending⟩],
         [⟨1, "booking_1_ab", "u", 50000, none, PaymentStatus.pending⟩], 0⟩
        3 1 (ChapaVerifyResponse.networkError "timeout")
      = (⟨[⟨1, 9, 10000⟩],
          [⟨1, 1, 3, 2, 7, 50000, BookingStatus.pending⟩],
          [⟨1, "booking_1_ab", "u", 50000, none, PaymentStatus.pending⟩], 0⟩,
         ⟨400, some false, some ("Network error: " ++ "timeout"), none⟩) :=
  (verify_gateway_error_no_mutation
    ⟨[⟨1, 9, 10000⟩],
     [⟨1, 1, 3, 2, 7, 50000, BookingStatus.pending⟩],
     [⟨1, "booking_1_ab", "u", 50000, none, PaymentStatus.pending⟩], 0⟩
    3 1 ⟨1, 1, 3, 2, 7, 50000, BookingStatus.pending⟩
    ⟨1, "booking_1_ab", "u", 50000, none, PaymentStatus.pending⟩
    "timeout" "declined" 500 (by decide) rfl (by decide)).1

/-- Counterexample to C4 as stated: the network-error response of Verify has
status code 400 — not in the 5xx/502 class — and a provider business failure
gets the same 400, so the two are not distinguished by status code. -/
theorem verify_gateway_error_counterexample :
    ((BookingViewSet.verify_payment
        ⟨[⟨1, 9, 10000⟩],
         [⟨1, 1, 3, 2, 7, 50000, BookingStatus.pending⟩],
         [⟨1, "booking_1_ab", "u", 50000, none, PaymentStatus.pending⟩], 0⟩
        3 1 (ChapaVerifyResponse.networkError "timeout")).2.statusCode = 400)
    ∧ ((BookingViewSet.verify_payment
        ⟨[⟨1, 9, 10000⟩],
         [⟨1, 1, 3, 2, 7, 50000, BookingStatus.pending⟩],
         [⟨1, "booking_1_ab", "u", 50000, none, PaymentStatus.pending⟩], 0⟩
        3 1 (ChapaVerifyResponse.apiFailure "declined")).2.statusCode = 400)
    ∧ (400 < 500) := by
  decide

/-! ## C5 -/

/-- C5 (amended): ChapaService.initiate_payment itself performs the
persistence. On a provider-reported success it appends the new pending
Payment row (amount = booking.total_price, transaction_id =
`booking_{id}_{suffix}`) to the payment table inside the adapter call and
returns that row with the checkout URL and transaction reference; the caller
creates nothing. On every provider failure the table is untouched. The
adapter never touches the booking table. -/
theorem adapter_initiate_persists_inside (db : DB) (bk : Booking)
    (suffix checkout msg : String) (ref : Option String) (code : Nat) :
    ((ChapaService.initiate_payment db bk suffix
        (ChapaInitResponse.ok checkout ref)).1.payments
      = db.payments ++ [⟨bk.booking_id,
          "booking_" ++ toString bk.booking_id ++ "_" ++ suffix, checkout,
          bk.total_price, ref, PaymentStatus.pending⟩])
    ∧ ((ChapaService.initiate_payment db bk suffix
        (ChapaInitResponse.ok checkout ref)).2
      = Except.ok (⟨bk.booking_id,
          "booking_" ++ toString bk.booking_id ++ "_" ++ suffix, checkout,
          bk.total_price, ref, PaymentStatus.pending⟩, checkout,
          "booking_" ++ toString bk.booking_id ++ "_" ++ suffix))
    ∧ ((ChapaService.initiate_payment db bk suffix
        (ChapaInitResponse.networkError msg)).1 = db)
    ∧ ((ChapaService.initiate_payment db bk suffix
        (ChapaInitResponse.httpError code)).1 = db)
    ∧ ((ChapaService.initiate_payment db bk suffix
        (ChapaInitResponse.apiFailure msg)).1 = db)
    ∧ ((ChapaService.initiate_payment db bk suffix
        (ChapaInitResponse.ok checkout ref)).1.bookings = db.bookings) :=
  ⟨rfl, rfl, rfl, rfl, rfl, rfl⟩

/-- Counterexample to C5 as stated: on a successful initiation the adapter
call itself grows the payment table — the Payment record is created inside
ChapaService.initiate_payment, not by its caller. -/
theorem adapter_initiate_persists_counterexample :
    ((ChapaService.initiate_payment
        ⟨[⟨1, 9, 10000⟩],
         [⟨1, 1, 3, 2, 7, 50000, BookingStatus.pending⟩], [], 0⟩
        ⟨1, 1, 3, 2, 7, 50000, BookingStatus.pending⟩
        "abcd1234" (ChapaInitResponse.ok "https-checkout" (some "r"))).1.payments.length
      = 1)
    ∧ ((⟨[⟨1, 9, 10000⟩],
         [⟨1, 1, 3, 2, 7, 50000, BookingStatus.pending⟩], [], 0⟩ : DB).payments.length
      = 0) := by
  decide

/-! ## C6 -/

/-- C6: initiating payment on a booking with no existing Payment (guest
caller, valid body, provider success) creates exactly one pending Payment
carrying the checkout URL and answers 201; a second initiate on the same
booking answers 400 "Payment already exists" with the database unchanged, for
every provider response — the existing-payment check runs before any provider
contact. -/
theorem initiate_payment_once (db : DB) (u pk : Nat) (b : Booking)
    (suffix checkout : String) (ref : Option String)
    (hb : db.findBooking pk = some b) (hu : b.user_id = u)
    (hnp : db.paymentOfBooking b.booking_id = none) :
    (BookingViewSet.initiate_payment db u pk true suffix
        (ChapaInitResponse.ok checkout ref)
      = ({ db with payments := db.payments ++ [⟨b.booking_id,
            "booking_" ++ toString b.booking_id ++ "_" ++ suffix, checkout,
            b.total_price, ref, PaymentStatus.pending⟩] },
         ⟨201, some true, none, some checkout⟩))
    ∧ ((BookingViewSet.initiate_payment db u pk true suffix
        (ChapaInitResponse.ok checkout ref)).1.payments.countP
          (fun q => q.booking_id = b.booking_id) = 1)
    ∧ (∀ (db2 : DB) (ex : Payment), db2.findBooking pk = some b →
        db2.paymentOfBooking b.booking_id = some ex →
        ∀ (flag : Bool) (sfx : String) (resp : ChapaInitResponse),
          BookingViewSet.initiate_payment db2 u pk flag sfx resp
            = (db2, ⟨400, none, some "Payment already exists for this booking",
                some ex.chapa_checkout_url⟩)) := by
  have h1 : BookingViewSet.initiate_payment db u pk true suffix
      (ChapaInitResponse.ok checkout ref)
      = ({ db with payments := db.payments ++ [⟨b.booking_id,
            "booking_" ++ toString b.booking_id ++ "_" ++ suffix, checkout,
            b.total_price, ref, PaymentStatus.pending⟩] },
         ⟨201, some true, none, some checkout⟩) := by
    unfold BookingViewSet.initiate_payment
    rw [hb]
    simp only [hu, ne_eq, not_true_eq_false, if_false, hnp]
    rfl
  refine ⟨h1, ?_, ?_⟩
  · have hz : db.payments.countP
        (fun q => decide (q.booking_id = b.booking_id)) = 0 := by
      rw [List.countP_eq_zero]
      intro q hq
      unfold DB.paymentOfBooking at hnp
      have hnone := List.find?_eq_none.mp hnp q hq
      simpa using hnone
    rw [h1]
    simp [List.countP_append, List.countP_cons, hz]
  · intro db2 ex hb2 hex flag sfx resp
    unfold BookingViewSet.initiate_payment
    rw [hb2]
    simp only [hu, ne_eq, not_true_eq_false, if_false, hex]

/-- Concrete instance of C6: the first initiation creates the single pending
payment; a second initiation on the resulting state is rejected with 400 and
changes nothing. -/
theorem initiate_payment_once_witness :
    ((BookingViewSet.initiate_payment
        ⟨[⟨1, 9, 10000⟩], [⟨1, 1, 3, 2, 7, 50000, BookingStatus.pending⟩],
         [], 0⟩
        3 1 true "abc" (ChapaInitResponse.ok "https-co" none)).1.payments.countP
          (fun q => q.booking_id = 1) = 1)
    ∧ (BookingViewSet.initiate_payment
        ⟨[⟨1, 9, 10000⟩], [⟨1, 1, 3, 2, 7, 50000, BookingStatus.pending⟩],
         [⟨1, "booking_1_abc", "https-co", 50000, none, PaymentStatus.pending⟩],
         0⟩
        3 1 true "xyz" (ChapaInitResponse.ok "u2" none)
      = (⟨[⟨1, 9, 10000⟩], [⟨1, 1, 3, 2, 7, 50000, BookingStatus.pending⟩],
          [⟨1, "booking_1_abc", "https-co", 50000, none, PaymentStatus.pending⟩],
          0⟩,
         ⟨400, none, some "Payment already exists for this booking",
          some "https-co"⟩)) :=
  have hc := initiate_payment_once
    ⟨[⟨1, 9, 10000⟩], [⟨1, 1, 3, 2, 7, 50000, BookingStatus.pending⟩], [], 0⟩
    3 1 ⟨1, 1, 3, 2, 7, 50000, BookingStatus.pending⟩
    "abc" "https-co" none (by decide) rfl (by decide)
  ⟨hc.2.1,
   hc.2.2
     ⟨[⟨1, 9, 10000⟩], [⟨1, 1, 3, 2, 7, 50000, BookingStatus.pending⟩],
      [⟨1, "booking_1_abc", "https-co", 50000, none, PaymentStatus.pending⟩], 0⟩
     ⟨1, "booking_1_abc", "https-co", 50000, none, PaymentStatus.pending⟩
     (by decide) (by decide) true "xyz" (ChapaInitResponse.ok "u2" none)⟩

/-! ## C7 -/

/-- C7: the webhook endpoint answers 404 with no state mutation when the
tx_ref matches no Payment (and never creates one); 400 with no state mutation
on invalid JSON or a missing/empty tx_ref; and 200 `{'success': true}` when
the tx_ref matches a Payment (whose booking exists), whatever the payment's
state — including already-terminal payments. -/
theorem callback_error_handling (db : DB) (t : String) (p : Payment)
    (b : Booking) (st : Option String)
    (htt : t ≠ "") (hunknown : db.findPaymentByTx t = none)
    (hfp : db.findPaymentByTx p.transaction_id = some p)
    (hfb : db.findBooking p.booking_id = some b)
    (htx : p.transaction_id ≠ "") :
    (PaymentCallbackView.post db (CallbackBody.payload (some t) st)
      = (db, ⟨404, some false, some "Payment not found", none⟩))
    ∧ (PaymentCallbackView.post db CallbackBody.invalidJson
      = (db, ⟨400, some false, some "Invalid JSON data", none⟩))
    ∧ (PaymentCallbackView.post db (CallbackBody.payload none st)
      = (db, ⟨400, some false, some "Invalid callback data", none⟩))
    ∧ (PaymentCallbackView.post db (CallbackBody.payload (some "") st)
      = (db, ⟨400, some false, some "Invalid callback data", none⟩))
    ∧ ((PaymentCallbackView.post db (CallbackBody.payload
        (some p.transaction_id) st)).2 = ⟨200, some true, none, none⟩) := by
  refine ⟨?_, rfl, rfl, rfl, ?_⟩
  · unfold PaymentCallbackView.post
    simp only [pyTruthy, Option.getD_some, decide_eq_true_eq]
    rw [if_pos htt, hunknown]
  · rcases hm : status_mapping (pyLower (st.getD "")) with _ | _ | _
    · rw [callback_step_pending db p st htx hfp hm]
    · rw [callback_step_completed db p b st htx hfp hfb hm]
    · rw [callback_step_failed db p b st htx hfp hfb hm]

/-- Concrete instance of C7: unknown tx_ref answers 404 leaving the state
untouched, and a known tx_ref of an already-completed payment still answers
200 `{'success': true}`. -/
theorem callback_error_handling_witness :
    (PaymentCallbackView.post
        ⟨[⟨1, 9, 10000⟩], [⟨1, 1, 3, 2, 7, 50000, BookingStatus.confirmed⟩],
         [⟨1, "booking_1_ab", "u", 50000, none, PaymentStatus.completed⟩], 1⟩
        (CallbackBody.payload (some "nope") (some "success"))
      = (⟨[⟨1, 9, 10000⟩], [⟨1, 1, 3, 2, 7, 50000, BookingStatus.confirmed⟩],
          [⟨1, "booking_1_ab", "u", 50000, none, PaymentStatus.completed⟩], 1⟩,
         ⟨404, some false, some "Payment not found", none⟩))
    ∧ ((PaymentCallbackView.post
        ⟨[⟨1, 9, 10000⟩], [⟨1, 1, 3, 2, 7, 50000, BookingStatus.confirmed⟩],
         [⟨1, "booking_1_ab", "u", 50000, none, PaymentStatus.completed⟩], 1⟩
        (CallbackBody.payload (some "booking_1_ab") (some "success"))).2
      = ⟨200, some true, none, none⟩) :=
  have hc := callback_error_handling
    ⟨[⟨1, 9, 10000⟩], [⟨1, 1, 3, 2, 7, 50000, BookingStatus.confirmed⟩],
     [⟨1, "booking_1_ab", "u", 50000, none, PaymentStatus.completed⟩], 1⟩
    "nope" ⟨1, "booking_1_ab", "u", 50000, none, PaymentStatus.completed⟩
    ⟨1, 1, 3, 2, 7, 50000, BookingStatus.confirmed⟩
    (some "success") (by decide) (by decide) (by decide) (by decide) (by decide)
  ⟨hc.1, hc.2.2.2.2⟩

/-! ## C9 -/

/-- C9 (amended): payment Initiate and the booking-scoped Verify answer 403
with no state change unless the caller is the Booking's guest; the payment
Status read is permitted to the guest or the listing's host (never 403 for
them) and answers 403 for anyone else; verify-by-transaction-id — the other
Verify entry point — is permitted to the guest OR the listing's host (it
proceeds to the provider call and transition) and answers 403 only when the
caller is neither. The Callback endpoint takes no caller identity at all and
resolves the payment only through the transactionRef lookup. -/
theorem access_control_rules (db : DB) (u pk : Nat) (b : Booking) (p : Payment)
    (t : String) (v : VerifyOk) (resp : ChapaVerifyResponse)
    (hb : db.findBooking pk = some b) :
    (b.user_id ≠ u → ∀ (flag : Bool) (sfx : String) (resp2 : ChapaInitResponse),
      BookingViewSet.initiate_payment db u pk flag sfx resp2
        = (db, ⟨403, none,
            some "You can only initiate payment for your own bookings", none⟩))
    ∧ (b.user_id ≠ u → ∀ (resp3 : ChapaVerifyResponse),
      BookingViewSet.verify_payment db u pk resp3
        = (db, ⟨403, none,
            some "You can only verify payment for your own bookings", none⟩))
    ∧ (b.user_id ≠ u → db.hostOf b ≠ some u →
      BookingViewSet.payment_status db u pk
        = (db, ⟨403, none,
            some "You do not have permission to view this payment", none⟩))
    ∧ ((b.user_id = u ∨ db.hostOf b = some u) →
      (BookingViewSet.payment_status db u pk).2.statusCode ≠ 403)
    ∧ (db.findPaymentByTx t = some p → db.findBooking p.booking_id = some b →
      (b.user_id = u ∨ db.hostOf b = some u) →
      ChapaService.verify_payment resp = Except.ok v →
      PaymentViewSet.verify_by_transaction_id db u (some t) resp
        = ((ChapaService.update_payment_status db p (Except.ok v)).1,
           ⟨200, some true, none, none⟩))
    ∧ (db.findPaymentByTx t = some p → db.findBooking p.booking_id = some b →
      b.user_id ≠ u → db.hostOf b ≠ some u →
      PaymentViewSet.verify_by_transaction_id db u (some t) resp
        = (db, ⟨403, none,
            some "You do not have permission to verify this payment", none⟩)) := by
  refine ⟨?_, ?_, ?_, ?_, ?_, ?_⟩
  · intro hne flag sfx resp2
    unfold BookingViewSet.initiate_payment
    rw [hb]
    simp only [ne_eq, hne, not_false_eq_true, if_true]
  · intro hne resp3
    unfold BookingViewSet.verify_payment
    rw [hb]
    simp only [ne_eq, hne, not_false_eq_true, if_true]
  · intro hne hnh
    unfold BookingViewSet.payment_status
    rw [hb]
    simp only [ne_eq]
    rw [if_pos ⟨hne, hnh⟩]
  · intro hor
    have hcond : ¬(b.user_id ≠ u ∧ db.hostOf b ≠ some u) := by
      rcases hor with h | h
      · exact fun hc => hc.1 h
      · exact fun hc => hc.2 h
    unfold BookingViewSet.payment_status
    rw [hb]
    simp only [ne_eq]
    rw [if_neg hcond]
    rcases hq : db.paymentOfBooking b.booking_id with _ | q <;> simp [hq]
  · intro hfp2 hfb2 hor hv
    have hcond : ¬(b.user_id ≠ u ∧ db.hostOf b ≠ some u) := by
      rcases hor with h | h
      · exact fun hc => hc.1 h
      · exact fun hc => hc.2 h
    unfold PaymentViewSet.verify_by_transaction_id
    simp only [hfp2, hfb2, ne_eq]
    rw [if_neg hcond, hv]
  · intro hfp2 hfb2 hne hnh
    unfold PaymentViewSet.verify_by_transaction_id
    simp only [hfp2, hfb2, ne_eq]
    rw [if_pos ⟨hne, hnh⟩]

/-- Concrete instance of the amended C9: a stranger (neither guest nor host)
gets 403 from the booking-scoped Verify, while the listing's host is allowed
through verify-by-transaction-id. -/
theorem access_control_rules_witness :
    (BookingViewSet.verify_payment
        ⟨[⟨1, 9, 10000⟩], [⟨1, 1, 3, 2, 7, 50000, BookingStatus.pending⟩],
         [⟨1, "booking_1_ab", "u", 50000, none, PaymentStatus.pending⟩], 0⟩
        7 1 (ChapaVerifyResponse.ok "pending" none none)
      = (⟨[⟨1, 9, 10000⟩], [⟨1, 1, 3, 2, 7, 50000, BookingStatus.pending⟩],
          [⟨1, "booking_1_ab", "u", 50000, none, PaymentStatus.pending⟩], 0⟩,
         ⟨403, none,
          some "You can only verify payment for your own bookings", none⟩))
    ∧ (PaymentViewSet.verify_by_transaction_id
        ⟨[⟨1, 9, 10000⟩], [⟨1, 1, 3, 2, 7, 50000, BookingStatus.pending⟩],
         [⟨1, "booking_1_ab", "u", 50000, none, PaymentStatus.pending⟩], 0⟩
        9 (some "booking_1_ab") (ChapaVerifyResponse.ok "pending" none none)
      = ((ChapaService.update_payment_status
            ⟨[⟨1, 9, 10000⟩], [⟨1, 1, 3, 2, 7, 50000, BookingStatus.pending⟩],
             [⟨1, "booking_1_ab", "u", 50000, none, PaymentStatus.pending⟩], 0⟩
            ⟨1, "booking_1_ab", "u", 50000, none, PaymentStatus.pending⟩
            (Except.ok ⟨PaymentStatus.pending, none, none⟩)).1,
         ⟨200, some true, none, none⟩)) :=
  have hg := access_control_rules
    ⟨[⟨1, 9, 10000⟩], [⟨1, 1, 3, 2, 7, 50000, BookingStatus.pending⟩],
     [⟨1, "booking_1_ab", "u", 50000, none, PaymentStatus.pending⟩], 0⟩
    7 1 ⟨1, 1, 3, 2, 7, 50000, BookingStatus.pending⟩
    ⟨1, "booking_1_ab", "u", 50000, none, PaymentStatus.pending⟩
    "booking_1_ab" ⟨PaymentStatus.pending, none, none⟩
    (ChapaVerifyResponse.ok "pending" none none) (by decide)
  have hh := access_control_rules
    ⟨[⟨1, 9, 10000⟩], [⟨1, 1, 3, 2, 7, 50000, BookingStatus.pending⟩],
     [⟨1, "booking_1_ab", "u", 50000, none, PaymentStatus.pending⟩], 0⟩
    9 1 ⟨1, 1, 3, 2, 7, 50000, BookingStatus.pending⟩
    ⟨1, "booking_1_ab", "u", 50000, none, PaymentStatus.pending⟩
    "booking_1_ab" ⟨PaymentStatus.pending, none, none⟩
    (ChapaVerifyResponse.ok "pending" none none) (by decide)
  ⟨hg.2.1 (by decide) (ChapaVerifyResponse.ok "pending" none none),
   hh.2.2.2.2.1 (by decide) (by decide) (Or.inr (by decide)) rfl⟩

/-- Counterexample to C9 as stated: the listing's host (user 9, not the
booking's guest 3) calls verify-by-transaction-id and receives 200, not 403 —
so Verify is not restricted to the Booking's guest. -/
theorem access_control_counterexample :
    ((PaymentViewSet.verify_by_transaction_id
        ⟨[⟨1, 9, 10000⟩], [⟨1, 1, 3, 2, 7, 50000, BookingStatus.pending⟩],
         [⟨1, "booking_1_ab", "u", 50000, none, PaymentStatus.pending⟩], 0⟩
        9 (some "booking_1_ab")
        (ChapaVerifyResponse.ok "pending" none none)).2.statusCode = 200)
    ∧ (9 : Nat) ≠ 3 := by
  decide

end AlxTravel
